import Mathlib

/-!
Verification of the Storage Gateway of `web/utils.py` (file validation,
store-to-S3-or-local, retrieval).

Modelling conventions:
* A Python binary stream (`BytesIO` / werkzeug `FileStorage` stream) is a
  `ByteStream`: its full byte content `data`, the current read position
  `pos`, and an instrumentation counter `bytesRead` recording how many
  bytes of content have been handed out by `read` calls (used to state
  claims of the form "fails before any content is read").
* The `python-magic` sniffer (a third-party C library) is modelled as an
  oracle parameter `sniff : List Nat → Option String` applied to the bytes
  actually passed to `magic.from_buffer`; `none` models the sniffer
  throwing, `some mime` a successful sniff.
* The werkzeug `secure_filename` (third-party) is modelled as an abstract
  sanitizer parameter `sf : String → String`.
* The S3 service and the local filesystem are association lists from
  keys/paths to byte contents inside a `World`; `netOk : Bool` models
  whether the network call `upload_fileobj` succeeds, and
  `freeBytes : Nat` models `shutil.disk_usage(...).free`.
* Raised Python exceptions are `Except` error values.  Crucially, the
  `try/except` blocks of the source are modelled faithfully: an exception
  raised *inside* a `try` body is delivered to the handler of that block,
  even when it is a `FileValidationError` the validator itself raised.
-/

/-- A Python binary stream: content, current position, and an
instrumentation counter of bytes returned by `read` calls. -/
structure ByteStream where
  data : List Nat
  pos : Nat
  bytesRead : Nat
deriving DecidableEq

/-- `stream.read(n)`: returns up to `n` bytes starting at `pos` and
advances `pos` by the number of bytes returned (BytesIO semantics). -/
def ByteStream.read (st : ByteStream) (n : Nat) : List Nat × ByteStream :=
  let chunk := (st.data.drop st.pos).take n
  (chunk, { st with pos := st.pos + chunk.length,
                    bytesRead := st.bytesRead + chunk.length })

/-- Errors raised as `FileValidationError` in `FileValidator.validate`,
one constructor per distinct raise site / message. -/
inductive VError where
  | invalidName
  | fileTooLarge
  | mimeNotAllowed (mime : String)
  | missingExtension
  | extensionMimeMismatch (ext mime : String)
  | extensionNotAllowed (ext : String)
  | binaryContentInTextFile
deriving DecidableEq

/-- An exception escaping the MIME-sniffing `try` body: either the magic
library itself threw, or the validator raised a `FileValidationError`
inside the `try`. Both are subclasses of `Exception`, so both are caught
by the `except Exception` handler at line 259 of `web/utils.py`. -/
inductive PyExc where
  | magicError
  | validation (e : VError)
deriving DecidableEq

/-- `FileValidator.max_size = 50 * 1024 * 1024`. -/
def max_size : Nat := 50 * 1024 * 1024

/-- `FileValidator.allowed_extensions["images"]`. -/
def allowed_images : List String := ["png", "jpg", "jpeg", "gif", "webp", "bmp"]

/-- `FileValidator.allowed_extensions["documents"]`. -/
def allowed_documents : List String :=
  ["pdf", "doc", "docx", "txt", "odt", "ppt", "pptx", "xls", "xlsx"]

/-- `FileValidator.allowed_extensions["archives"]`. -/
def allowed_archives : List String := ["zip", "rar", "7z"]

/-- `FileValidator.all_extensions`: union of the three categories. -/
def all_extensions : List String :=
  allowed_images ++ allowed_documents ++ allowed_archives

/-- `FileValidator.mime_to_ext`, as the association list underlying the
Python dict. -/
def mime_to_ext_table : List (String × List String) :=
  [("image/png", ["png"]),
   ("image/jpeg", ["jpg", "jpeg"]),
   ("image/gif", ["gif"]),
   ("image/webp", ["webp"]),
   ("image/bmp", ["bmp"]),
   ("application/pdf", ["pdf"]),
   ("application/msword", ["doc"]),
   ("application/vnd.openxmlformats-officedocument.wordprocessingml.document", ["docx"]),
   ("application/vnd.ms-excel", ["xls"]),
   ("application/vnd.openxmlformats-officedocument.spreadsheetml.sheet", ["xlsx"]),
   ("application/vnd.ms-powerpoint", ["ppt"]),
   ("application/vnd.openxmlformats-officedocument.presentationml.presentation", ["pptx"]),
   ("text/plain", ["txt"]),
   ("application/zip", ["zip"]),
   ("application/x-rar-compressed", ["rar"]),
   ("application/x-7z-compressed", ["7z"])]

/-- Dict lookup `self.mime_to_ext.get(mime)`. -/
def mime_to_ext (mime : String) : Option (List String) :=
  mime_to_ext_table.lookup mime

/-- `needle.isPrefixOf hay || needle occurs somewhere in hay` — substring
test on character lists, structural so that it evaluates by `rfl`. -/
def listHasSub (hay needle : List Char) : Bool :=
  match hay with
  | [] => needle.isEmpty
  | _ :: t => List.isPrefixOf needle hay || listHasSub t needle

/-- The Python substring test `needle in hay` on strings. -/
def strContains (hay needle : String) : Bool :=
  listHasSub hay.toList needle.toList

/-- The Python `s.startswith(p)`. -/
def strStarts (s p : String) : Bool :=
  List.isPrefixOf p.toList s.toList

/-- `".." in filename or "/" in filename or "\\" in filename`. -/
def badName (filename : String) : Bool :=
  strContains filename ".." || filename.toList.contains '/'
    || filename.toList.contains '\\'

/-- `filename.rsplit('.', 1)[1].lower() if '.' in filename else ''`: the
(ASCII-lowercased) characters after the last `'.'` of the filename, or the
empty string when the filename has no dot. -/
def extOf (filename : String) : String :=
  if filename.toList.contains '.' then
    String.mk (((filename.toList.reverse.takeWhile (fun c => c ≠ '.')).reverse).map
      Char.toLower)
  else ""

/-- The body of the `try:` at lines 236-257 of `web/utils.py`, starting
after the stream reads: sniff the MIME type, look it up in the table, and
cross-check the claimed extension.  Returns the extension bound by the
block on success, or the exception that escapes the block (every
`.error` here is caught by the `except Exception` at line 259). -/
def sniffStage (sniff : List Nat → Option String) (file_content : List Nat)
    (filename : String) : Except PyExc String :=
  match sniff file_content with
  | none => .error .magicError
  | some mime =>
    match mime_to_ext mime with
    | none => .error (.validation (.mimeNotAllowed mime))
    | some expected_exts =>
      let ext := extOf filename
      if ext = "" then .error (.validation .missingExtension)
      else if ext ∉ expected_exts ∧
          ¬(mime = "image/jpeg" ∧ (ext = "jpg" ∨ ext = "jpeg")) then
        .error (.validation (.extensionMimeMismatch ext mime))
      else if ext ∉ all_extensions then
        .error (.validation (.extensionNotAllowed ext))
      else .ok ext

/-- Lines 266-276 of `web/utils.py`: the text-content heuristic.  The
`FileValidationError` raised at line 273 sits inside a `try: ... except:
pass`, so the bare handler catches it and the block always falls through
to `return True`; the raised value is computed but discarded. -/
def txtContentCheck (st : ByteStream) (ext : String) :
    Except VError Unit × ByteStream :=
  if ext ∈ ["txt", "pdf", "doc", "docx"] then
    let rd := st.read 1024
    let sample := rd.1
    let st2 : ByteStream := { rd.2 with pos := 0 }
    let raised : Except VError Unit :=
      if sample.contains 0 ∧ ext = "txt" then .error .binaryContentInTextFile
      else .ok ()
    match raised with
    | .error _ => (.ok (), st2)
    | .ok _ => (.ok (), st2)
  else (.ok (), st)

/-- `FileValidator.validate(file_stream, filename)` (lines 221-277 of
`web/utils.py`).  Returns the outcome (`.ok ()` models `return True`,
`.error e` models an escaping `FileValidationError`) together with the
stream as left by the call. -/
def validate (sniff : List Nat → Option String) (st : ByteStream)
    (filename : String) : Except VError Unit × ByteStream :=
  if badName filename then (.error .invalidName, st)
  else
    let size := st.data.length
    let st1 : ByteStream := { st with pos := 0 }
    if size > max_size then (.error .fileTooLarge, st1)
    else
      let rd := st1.read 2048
      let file_content := rd.1
      let st2 : ByteStream := { rd.2 with pos := 0 }
      match sniffStage sniff file_content filename with
      | .ok ext => txtContentCheck st2 ext
      | .error _ =>
        let ext := extOf filename
        if ext ∉ all_extensions then (.error (.extensionNotAllowed ext), st2)
        else txtContentCheck st2 ext

/-- The S3 configuration read from the environment by `S3Manager.__init__`
(`S3_ENDPOINT`, `S3_KEY`, `S3_SECRET`, `S3_BUCKET_NAME`); `none` models an
unset variable. -/
structure S3Config where
  endpoint : Option String
  key : Option String
  secret : Option String
  bucket : String
deriving DecidableEq

/-- `self.is_configured = bool(self.endpoint and self.key and self.secret)`. -/
def S3Config.isConfigured (c : S3Config) : Bool :=
  c.endpoint.isSome && c.key.isSome && c.secret.isSome

/-- The state of both backends: local files and directories, and the S3
bucket objects.  Files and objects map a path/key to byte content; new
writes are prepended and `List.lookup` returns the newest entry, giving
overwrite semantics.  (Content-type metadata on S3 objects is not
modelled; no claim concerns it.) -/
structure World where
  localFiles : List (String × List Nat)
  dirs : List String
  s3Objects : List (String × List Nat)
deriving DecidableEq

/-- The inbound werkzeug `FileStorage`: claimed filename, stream, and the
client-supplied `content_type` header. -/
structure Archivo where
  filename : String
  stream : ByteStream
  content_type : Option String

/-- Errors that `guardar_archivo` can re-raise to its caller
(`FileValidationError` wrapping a validation error, or `DiskSpaceError`;
`S3UploadError` never escapes because the only upload call sits inside a
`try/except S3UploadError`). -/
inductive StoreErr where
  | validation (e : VError)
  | diskSpace
deriving DecidableEq

/-- `S3Manager.upload_file(file_stream, key, content_type)` (lines 117-132
of `web/utils.py`): raises `S3UploadError` when unconfigured
(`get_client`) or when the network transfer fails; on success stores the
whole stream from position 0 under `key` and leaves the position at the
end.  A failing `upload_fileobj` may have read part of the stream before
raising; the oracle `failConsumed` models how many bytes it consumed, and
the stream is left at that position — the source performs no seek between
the failure and the local fallback, so a later `archivo.save` copies only
the remaining suffix.  Returns the S3 object list and the stream
alongside the outcome. -/
def upload_file (cfg : S3Config) (netOk : Bool) (failConsumed : Nat)
    (s3 : List (String × List Nat)) (st : ByteStream) (key : String) :
    Except Unit String × List (String × List Nat) × ByteStream :=
  if cfg.isConfigured then
    let st1 : ByteStream := { st with pos := 0 }
    if netOk then
      let content := st1.data
      (.ok ((cfg.endpoint.getD "") ++ "/" ++ cfg.bucket ++ "/" ++ key),
       (key, content) :: s3,
       { st1 with pos := st1.data.length,
                  bytesRead := st1.bytesRead + content.length })
    else (.error (), s3, (st1.read failConsumed).2)
  else (.error (), s3, st)

/-- `check_disk_space(min_free_gb=1)`: a 1 GiB threshold on the free
bytes reported by `shutil.disk_usage`. -/
def threshold_bytes : Nat := 1024 ^ 3

/-- The local branch of `guardar_archivo` (lines 354-359):
`check_disk_space()`, then `archivo.save(local_path)` (werkzeug copies the
stream from its current position) and `return (filename, False)`. -/
def save_local (freeBytes : Nat) (w : World) (st : ByteStream)
    (upload_folder filename : String) :
    Except StoreErr (String × Bool) × World × ByteStream :=
  if freeBytes < threshold_bytes then (.error .diskSpace, w, st)
  else
    let local_path := upload_folder ++ "/" ++ filename
    let content := st.data.drop st.pos
    (.ok (filename, false),
     { w with localFiles := (local_path, content) :: w.localFiles },
     { st with pos := st.data.length,
               bytesRead := st.bytesRead + content.length })

/-- `guardar_archivo(archivo, upload_folder="uploads")` (lines 318-364 of
`web/utils.py`): sanitize the name, create the upload directory, validate,
then try S3 (if configured) with fallback to local disk.  The boolean in
the result is the `es_s3` flag (`true` = REMOTE, `false` = LOCAL).  After
a failed upload the stream is not re-seeked, so the local fallback saves
from wherever the failed transfer left the position (see `upload_file`
and its `failConsumed` oracle). -/
def guardar_archivo (sf : String → String) (sniff : List Nat → Option String)
    (cfg : S3Config) (netOk : Bool) (failConsumed : Nat) (freeBytes : Nat)
    (w : World) (archivo : Archivo) (upload_folder : String) :
    Except StoreErr (String × Bool) × World × ByteStream :=
  let filename := sf archivo.filename
  let w1 : World := { w with dirs := upload_folder :: w.dirs }
  match validate sniff archivo.stream filename with
  | (.error e, st) => (.error (.validation e), w1, st)
  | (.ok _, st) =>
    let st1 : ByteStream := { st with pos := 0 }
    if cfg.isConfigured then
      let s3_key := "uploads/" ++ filename
      match upload_file cfg netOk failConsumed w1.s3Objects st1 s3_key with
      | (.ok _url, s3objs, st2) =>
        (.ok (s3_key, true), { w1 with s3Objects := s3objs }, st2)
      | (.error _, s3objs, st2) =>
        let w2 : World := { w1 with s3Objects := s3objs }
        if freeBytes < threshold_bytes then (.error .diskSpace, w2, st2)
        else save_local freeBytes w2 st2 upload_folder filename
    else save_local freeBytes w1 st1 upload_folder filename

/-- Errors surfaced by `descargar_archivo`: the `S3UploadError` raised by
`S3Manager.download_file` when the object is missing, and the HTTP 404
`NotFound` raised by `send_from_directory` when the local file is
missing. -/
inductive RetrieveErr where
  | s3Download
  | notFound
deriving DecidableEq

/-- `os.path.join(a, b)`, with the trailing separator of
`os.path.join(a, "")` normalized away (both spellings denote the same
directory). -/
def pjoin (a b : String) : String :=
  if b = "" then a else a ++ "/" ++ b

/-- The Flask helper `send_from_directory(directory, name)`: the bytes of
the file, or
a 404 `NotFound` when absent. -/
def send_from_directory (w : World) (dir name : String) :
    Except RetrieveErr (List Nat) :=
  match w.localFiles.lookup (dir ++ "/" ++ name) with
  | some c => .ok c
  | none => .error .notFound

/-- `descargar_archivo(archivo_url, nombre_archivo, carpeta_local)`
(lines 565-576 of `web/utils.py`): remote resolution when the reference
looks remote ("http" prefix or "uploads/" substring) and S3 is configured,
otherwise local resolution under `uploads/<carpeta_local>`.  Returns the
bytes served to the client. -/
def descargar_archivo (cfg : S3Config) (w : World)
    (archivo_url nombre_archivo carpeta_local : String) :
    Except RetrieveErr (List Nat) :=
  if archivo_url ≠ "" ∧
      (strStarts archivo_url "http" ∨ strContains archivo_url "uploads/") then
    if cfg.isConfigured then
      match w.s3Objects.lookup archivo_url with
      | some content => .ok content
      | none => .error .s3Download
    else send_from_directory w (pjoin "uploads" carpeta_local) nombre_archivo
  else send_from_directory w (pjoin "uploads" carpeta_local) nombre_archivo

theorem txtContentCheck_fst (st : ByteStream) (ext : String) :
    (txtContentCheck st ext).1 = .ok () := by
  unfold txtContentCheck
  split
  · dsimp only
    split <;> rfl
  · rfl

theorem txtContentCheck_data (st : ByteStream) (ext : String) :
    (txtContentCheck st ext).2.data = st.data := by
  unfold txtContentCheck
  split
  · dsimp only
    split <;> rfl
  · rfl

theorem txtContentCheck_pos (st : ByteStream) (ext : String) (h : st.pos = 0) :
    (txtContentCheck st ext).2.pos = 0 := by
  unfold txtContentCheck
  split
  · dsimp only
    split <;> rfl
  · exact h

/-- Every stream touched by `validate` keeps its byte content. -/
theorem validate_data (sniff : List Nat → Option String) (st : ByteStream)
    (filename : String) : ((validate sniff st filename).2).data = st.data := by
  unfold validate
  split
  · rfl
  · dsimp only
    split
    · rfl
    · split
      · exact txtContentCheck_data _ _
      · split
        · rfl
        · exact txtContentCheck_data _ _

/-- The `try` body at lines 236-257 can only finish without an exception
by binding an extension that passed the allow-list check. -/
theorem sniffStage_ok_mem (sniff : List Nat → Option String)
    (file_content : List Nat) (filename : String) (e : String)
    (h : sniffStage sniff file_content filename = .ok e) :
    e = extOf filename ∧ e ∈ all_extensions := by
  unfold sniffStage at h
  split at h
  · exact absurd h (by simp)
  · split at h
    · exact absurd h (by simp)
    · dsimp only at h
      split_ifs at h with h1 h2 h3
      first
        | exact Except.noConfusion h
        | (injection h with he; exact ⟨he.symm, he ▸ h3⟩)

/-- C1 (code bug witness): for the stream `b"MZ"` under a sniffer that
succeeds with MIME `application/x-dosexec` — a type absent from
`mime_to_ext` — and the allow-listed filename `"t.zip"`, `validate`
returns success instead of failing with `MimeNotAllowed`: the
`FileValidationError` raised at line 243 of `web/utils.py` is caught by
the `except Exception` at line 259, which degrades to extension-only
checking. -/
theorem C1_mimeNotAllowed_swallowed :
    validate (fun _ => some "application/x-dosexec") ⟨[77, 90], 0, 0⟩ "t.zip" =
      (.ok (), ⟨[77, 90], 0, 2⟩) := rfl

/-- C2 (code bug witness): for filename `"photo.png"` whose bytes sniff as
`image/jpeg`, `validate` returns success instead of failing with
`ExtensionMimeMismatch`: the `FileValidationError` raised at line 253 of
`web/utils.py` is caught by the `except Exception` at line 259, and the
extension-only fallback accepts `png`. -/
theorem C2_mismatch_swallowed :
    validate (fun _ => some "image/jpeg") ⟨[255, 216, 255], 0, 0⟩ "photo.png" =
      (.ok (), ⟨[255, 216, 255], 0, 3⟩) := rfl

/-- C3 (code bug witness): for filename `"notes.txt"` whose first 1024
bytes contain a NUL byte (here `b"h\x00l"`), `validate` returns success
instead of failing with `BinaryContentInTextFile`: the
`FileValidationError` raised at line 273 of `web/utils.py` sits inside
`try: ... except: pass`, so the bare handler swallows it. -/
theorem C3_nul_check_swallowed :
    validate (fun _ => some "text/plain") ⟨[104, 0, 108], 0, 0⟩ "notes.txt" =
      (.ok (), ⟨[104, 0, 108], 0, 6⟩) := rfl

/-- C4 (counterexample): `validate` on a stream whose position at entry is
1 and an invalid filename `"../x"` raises the invalid-name error without
touching the stream, so the position at return is 1, not 0 — refuting the
claim that the position is 0 after every call. -/
theorem C4_counterexample :
    (validate (fun _ => none) ⟨[1], 1, 0⟩ "../x").1 = .error .invalidName ∧
      (validate (fun _ => none) ⟨[1], 1, 0⟩ "../x").2.pos ≠ 0 :=
  ⟨rfl, by decide⟩

/-- C4 (amended): after any call to `validate`, the stream position is 0,
except on the invalid-filename path, which raises before touching the
stream and therefore leaves the stream (and its position) exactly as it
was at entry. -/
theorem C4_stream_position (sniff : List Nat → Option String)
    (st : ByteStream) (filename : String) :
    ((validate sniff st filename).2).pos = 0 ∨
      validate sniff st filename = (.error .invalidName, st) := by
  unfold validate
  split
  · exact Or.inr rfl
  · left
    dsimp only
    split
    · rfl
    · split
      · exact txtContentCheck_pos _ _ rfl
      · split
        · rfl
        · exact txtContentCheck_pos _ _ rfl

/-- C9 (counterexample): `validate` of `"virus.exe"` on a 4-byte stream
does fail with `ExtensionNotAllowed`, but only after reading content: the
MIME-sniffing read at line 237 of `web/utils.py` runs before the extension
is ever examined, so 4 bytes have been read when the call fails —
refuting the claim that the failure occurs before any content is read. -/
theorem C9_counterexample :
    (validate (fun _ => none) ⟨[1, 2, 3, 4], 0, 0⟩ "virus.exe").1 =
        .error (.extensionNotAllowed "exe") ∧
      (validate (fun _ => none) ⟨[1, 2, 3, 4], 0, 0⟩ "virus.exe").2.bytesRead ≠ 0 :=
  ⟨rfl, by decide⟩

/-- C9 (amended): for every filename that passes the path-traversal check
and whose extension is not in the allow-list, and every stream within the
size ceiling, `validate` fails with `ExtensionNotAllowed` whatever the
sniffer says — but after the content read, not before it. -/
theorem C9_extension_rejected (sniff : List Nat → Option String)
    (st : ByteStream) (filename : String)
    (hname : badName filename = false)
    (hsize : st.data.length ≤ max_size)
    (hext : extOf filename ∉ all_extensions) :
    (validate sniff st filename).1 =
      .error (.extensionNotAllowed (extOf filename)) := by
  unfold validate
  rw [if_neg (by simp [hname])]
  dsimp only
  rw [if_neg (Nat.not_lt.mpr hsize)]
  split
  next e heq =>
    have hm := sniffStage_ok_mem _ _ _ _ heq
    exact absurd (hm.1 ▸ hm.2) hext
  next exc heq =>
    rw [if_pos hext]

/-- C9 (witness): instantiation of the amended claim at filename
`"virus.exe"` and the 2-byte stream `b"MZ"` under a sniffer reporting
`application/x-dosexec`. -/
theorem C9_witness :
    (validate (fun _ => some "application/x-dosexec") ⟨[77, 90], 0, 0⟩
        "virus.exe").1 = .error (.extensionNotAllowed "exe") :=
  C9_extension_rejected _ _ _ rfl (by decide) (by decide)

/-- C5: with S3 configured but the upload failing, `guardar_archivo`
does not propagate the upload failure to its caller: whatever part of the
stream the failed transfer consumed, it falls back to the local branch,
writes a file under the upload directory and returns the LOCAL backend
flag — provided the free-disk-space check against the 1 GiB threshold
passes; when free space is below the threshold it fails with the
disk-space error instead, and no further fallback exists.  (The fallback
write copies from wherever the failed transfer left the stream, so its
content can be a truncated suffix of the input; the claim asserts only
that the fallback write happens and the call succeeds.) -/
theorem C5_s3_fallback (sf : String → String) (sniff : List Nat → Option String)
    (cfg : S3Config) (w : World) (archivo : Archivo) (upload_folder : String)
    (fbGood fbBad failConsumed : Nat)
    (hcfg : cfg.isConfigured = true)
    (hval : (validate sniff archivo.stream (sf archivo.filename)).1 = .ok ())
    (hgood : threshold_bytes ≤ fbGood) (hbad : fbBad < threshold_bytes) :
    ((guardar_archivo sf sniff cfg false failConsumed fbGood w archivo
          upload_folder).1 = .ok (sf archivo.filename, false) ∧
      (((guardar_archivo sf sniff cfg false failConsumed fbGood w archivo
            upload_folder).2.1).localFiles.lookup
          (upload_folder ++ "/" ++ sf archivo.filename)).isSome = true) ∧
    (guardar_archivo sf sniff cfg false failConsumed fbBad w archivo
        upload_folder).1 = .error .diskSpace := by
  rcases hv : validate sniff archivo.stream (sf archivo.filename) with ⟨r, stv⟩
  rw [hv] at hval
  simp only at hval
  subst hval
  refine ⟨⟨?_, ?_⟩, ?_⟩ <;>
    simp [guardar_archivo, upload_file, save_local, hv, hcfg,
      Nat.not_lt.mpr hgood, hbad, List.lookup]

/-- C5 (witness): concrete instantiation — a 4-byte PDF stream named
`"report.pdf"`, S3 configured but the network transfer failing after
consuming 2 bytes, free space exactly at the 1 GiB threshold (fallback
succeeds) versus zero free bytes (disk-space failure). -/
theorem C5_witness :
    ((guardar_archivo (fun s => s) (fun _ => some "application/pdf")
          ⟨some "https://e2.example", some "k", some "s", "taller-computo"⟩
          false 2 (1024 ^ 3) ⟨[], [], []⟩
          ⟨"report.pdf", ⟨[37, 80, 68, 70], 0, 0⟩, none⟩ "uploads").1 =
        .ok ("report.pdf", false) ∧
      (((guardar_archivo (fun s => s) (fun _ => some "application/pdf")
            ⟨some "https://e2.example", some "k", some "s", "taller-computo"⟩
            false 2 (1024 ^ 3) ⟨[], [], []⟩
            ⟨"report.pdf", ⟨[37, 80, 68, 70], 0, 0⟩, none⟩
            "uploads").2.1).localFiles.lookup "uploads/report.pdf").isSome =
        true) ∧
    (guardar_archivo (fun s => s) (fun _ => some "application/pdf")
        ⟨some "https://e2.example", some "k", some "s", "taller-computo"⟩
        false 2 0 ⟨[], [], []⟩
        ⟨"report.pdf", ⟨[37, 80, 68, 70], 0, 0⟩, none⟩ "uploads").1 =
      .error .diskSpace :=
  C5_s3_fallback _ _ _ _ _ _ _ _ _ rfl rfl (by decide) (by decide)

/-- C6 (counterexample): a fully valid input (`"report.pdf"`, PDF bytes,
validation passes) stored with remote credentials unset does *not*
return the LOCAL backend when free disk space is below the 1 GiB
threshold: `guardar_archivo` fails with the disk-space error instead,
refuting the unconditional claim. -/
theorem C6_counterexample :
    (validate (fun _ => some "application/pdf") ⟨[37, 80, 68, 70], 0, 0⟩
        "report.pdf").1 = .ok () ∧
      (guardar_archivo (fun s => s) (fun _ => some "application/pdf")
          ⟨none, none, none, "taller-computo"⟩ false 0 0 ⟨[], [], []⟩
          ⟨"report.pdf", ⟨[37, 80, 68, 70], 0, 0⟩, none⟩ "uploads").1 =
        .error .diskSpace :=
  ⟨rfl, rfl⟩

/-- C6 (amended): for every input that passes validation, if remote
credentials are unset *and the free-disk-space check against the 1 GiB
threshold passes*, `guardar_archivo` returns the sanitized filename as
reference with the LOCAL backend flag, and the bytes of the file sit under the
local upload directory afterward. -/
theorem C6_local_store (sf : String → String) (sniff : List Nat → Option String)
    (cfg : S3Config) (netOk : Bool) (failConsumed freeBytes : Nat) (w : World)
    (archivo : Archivo) (upload_folder : String)
    (hcfg : cfg.isConfigured = false)
    (hval : (validate sniff archivo.stream (sf archivo.filename)).1 = .ok ())
    (hfree : threshold_bytes ≤ freeBytes) :
    (guardar_archivo sf sniff cfg netOk failConsumed freeBytes w archivo
          upload_folder).1 =
        .ok (sf archivo.filename, false) ∧
      ((guardar_archivo sf sniff cfg netOk failConsumed freeBytes w archivo
            upload_folder).2.1).localFiles.lookup
          (upload_folder ++ "/" ++ sf archivo.filename) =
        some archivo.stream.data := by
  have hdata := validate_data sniff archivo.stream (sf archivo.filename)
  rcases hv : validate sniff archivo.stream (sf archivo.filename) with ⟨r, stv⟩
  rw [hv] at hval hdata
  simp only at hval hdata
  subst hval
  refine ⟨?_, ?_⟩ <;>
    simp [guardar_archivo, save_local, hv, hcfg,
      Nat.not_lt.mpr hfree, List.lookup, hdata]

/-- C6 (witness): instantiation at `"report.pdf"` with PDF bytes, no
remote credentials, and free space at the threshold. -/
theorem C6_witness :
    (guardar_archivo (fun s => s) (fun _ => some "application/pdf")
          ⟨none, none, none, "taller-computo"⟩ false 0 (1024 ^ 3) ⟨[], [], []⟩
          ⟨"report.pdf", ⟨[37, 80, 68, 70], 0, 0⟩, none⟩ "uploads").1 =
        .ok ("report.pdf", false) ∧
      ((guardar_archivo (fun s => s) (fun _ => some "application/pdf")
            ⟨none, none, none, "taller-computo"⟩ false 0 (1024 ^ 3) ⟨[], [], []⟩
            ⟨"report.pdf", ⟨[37, 80, 68, 70], 0, 0⟩, none⟩
            "uploads").2.1).localFiles.lookup "uploads/report.pdf" =
        some [37, 80, 68, 70] :=
  C6_local_store _ _ _ _ _ _ _ _ _ rfl rfl (by decide)

/-- C8 (counterexample): for the remote-shaped reference
`"uploads/report.pdf"` with remote credentials unset, `descargar_archivo`
does not fail with any backend-unavailable error — no such error exists
in the code — but silently falls back to local-directory resolution and,
with the file absent locally, reports `NotFound`. -/
theorem C8_counterexample :
    descargar_archivo ⟨none, none, none, "taller-computo"⟩ ⟨[], [], []⟩
      "uploads/report.pdf" "report.pdf" "" = .error .notFound := rfl

/-- C8 (amended): whenever remote credentials are not configured,
`descargar_archivo` resolves *every* reference — remote-shaped or not —
through the local upload directory via `send_from_directory`; an absent
local file therefore surfaces as `NotFound`, never as a
backend-unavailable error. -/
theorem C8_local_fallback (cfg : S3Config) (w : World)
    (archivo_url nombre_archivo carpeta_local : String)
    (h : cfg.isConfigured = false) :
    descargar_archivo cfg w archivo_url nombre_archivo carpeta_local =
      send_from_directory w (pjoin "uploads" carpeta_local) nombre_archivo := by
  unfold descargar_archivo
  split
  · rw [if_neg (by simp [h])]
  · rfl

/-- C8 (witness): instantiation at the remote-shaped reference
`"uploads/report.pdf"` with credentials unset. -/
theorem C8_witness :
    descargar_archivo ⟨none, none, none, "taller-computo"⟩
        ⟨[("uploads/report.pdf", [37, 80, 68, 70])], ["uploads"], []⟩
        "uploads/report.pdf" "report.pdf" "" =
      send_from_directory ⟨[("uploads/report.pdf", [37, 80, 68, 70])], ["uploads"], []⟩
        (pjoin "uploads" "") "report.pdf" :=
  C8_local_fallback _ _ _ _ _ rfl

/-- C10: whenever validation fails, `guardar_archivo` re-raises the
validation error to its caller and writes nothing: no S3 object is
uploaded and no local file is created (only the upload directory itself
is created beforehand by `os.makedirs`). -/
theorem C10_failed_store_writes_nothing (sf : String → String)
    (sniff : List Nat → Option String) (cfg : S3Config) (netOk : Bool)
    (failConsumed freeBytes : Nat) (w : World) (archivo : Archivo)
    (upload_folder : String) (e : VError) (st' : ByteStream)
    (hv : validate sniff archivo.stream (sf archivo.filename) = (.error e, st')) :
    (guardar_archivo sf sniff cfg netOk failConsumed freeBytes w archivo
          upload_folder).1 =
        .error (.validation e) ∧
      ((guardar_archivo sf sniff cfg netOk failConsumed freeBytes w archivo
          upload_folder).2.1).localFiles = w.localFiles ∧
      ((guardar_archivo sf sniff cfg netOk failConsumed freeBytes w archivo
          upload_folder).2.1).s3Objects = w.s3Objects := by
  unfold guardar_archivo
  dsimp only
  rw [hv]
  exact ⟨rfl, rfl, rfl⟩

/-- C10 (witness): instantiation at the path-traversal filename
`"../evil.pdf"`, whose validation fails with the invalid-name error
before the backends are touched. -/
theorem C10_witness :
    (guardar_archivo (fun s => s) (fun _ => some "application/pdf")
        ⟨some "https://e2.example", some "k", some "s", "taller-computo"⟩ true 0
        (1024 ^ 3) ⟨[], [], []⟩ ⟨"../evil.pdf", ⟨[1], 0, 0⟩, none⟩ "uploads").1 =
        .error (.validation .invalidName) ∧
      ((guardar_archivo (fun s => s) (fun _ => some "application/pdf")
          ⟨some "https://e2.example", some "k", some "s", "taller-computo"⟩ true 0
          (1024 ^ 3) ⟨[], [], []⟩ ⟨"../evil.pdf", ⟨[1], 0, 0⟩, none⟩
          "uploads").2.1).localFiles = ([] : List (String × List Nat)) ∧
      ((guardar_archivo (fun s => s) (fun _ => some "application/pdf")
          ⟨some "https://e2.example", some "k", some "s", "taller-computo"⟩ true 0
          (1024 ^ 3) ⟨[], [], []⟩ ⟨"../evil.pdf", ⟨[1], 0, 0⟩, none⟩
          "uploads").2.1).s3Objects = ([] : List (String × List Nat)) :=
  C10_failed_store_writes_nothing _ _ _ _ _ _ _ _ _ _ _ rfl

